import Mathlib

/-!
Shallow embedding of the AI-NFT creation pipeline from `src/src/App.js`
(the `App` component: `uploadImageToPinata`, `query`, `createImage`,
`handleUpload`, `submitHandler`, `mintImage`, and the form markup) and of
`src/scripts/deploy.js` (`main`).

External effects (the inference HTTP call, the two Pinata pinning calls,
the mint transaction submission and its confirmation wait, and the
environment variables) are modelled by an `Oracle` fixing the outcome of
each effect; the run functions are then deterministic.  Each run returns
the final React state, the ordered trace of outbound calls, the state
snapshots taken at each asynchronous suspension point (the `await`s), and
the run outcome.
-/

namespace AiNft

/-- Binary blob contents, as a byte/codepoint list. -/
abbrev Blob := List Nat

/-- Bytes of a string, as JS coerces values into file contents. -/
def strBytes (s : String) : Blob := s.data.map Char.toNat

/-- Outcome of an awaited external effect: the JS promise either resolves
with a value or rejects with an error message. -/
inductive Res (α : Type) where
  | ok (a : α)
  | err (msg : String)
deriving DecidableEq, Repr

/-- An HTTP response as `fetch` resolves it: a status code and a body.
`query` in the source never inspects `status`; it only reads the body via
`response.blob()`. -/
structure HttpResp where
  status : Nat
  body : Blob
deriving DecidableEq, Repr

/-- The parsed body of a Pinata pinning response, `response.data`.  The
source reads the property `IpfsHash` without checking its presence, so it
is an `Option`: `none` models a response in which the field is absent
(JS `undefined`). -/
structure PinResp where
  ipfsHash : Option String
deriving DecidableEq, Repr

/-- The body object `{ inputs: ... }` sent (JSON-serialized) to the
inference endpoint by `query`. -/
structure QueryBody where
  inputs : String
deriving DecidableEq, Repr

/-- The metadata document built in `uploadImageToPinata` (lines 88-93):
`{ name, description, image: imageUrl, attributes: [] }`. -/
structure Metadata where
  name : String
  description : String
  image : String
  attributes : List String
deriving DecidableEq, Repr

/-- One outbound call of the pipeline: the inference POST, the two Pinata
pinning POSTs, and the chain-client mint invocation
`nft.connect(signer).mint(tokenURI, value)`.  `mint` carries the token
URI as the source hands it over (possibly JS `undefined`, i.e. `none`)
and the attached payment in wei. -/
inductive Call where
  | generation (body : QueryBody)
  | pinFile (payload : Blob)
  | pinJson (doc : Metadata)
  | mint (tokenUri : Option String) (valueWei : Nat)
deriving DecidableEq, Repr

/-- The React state of `App` that the pipeline mutates.  `image` holds the
generated blob (the source stores its data-URL rendering; the blob stands
for it), `url` the metadata URL shown as the `Metadata` link. -/
structure AppState where
  isWaiting : Bool
  message : String
  image : Option Blob
  url : Option String
deriving DecidableEq, Repr

/-- Initial component state (`useState(false)`, `useState("")`, ...). -/
def initialState : AppState :=
  { isWaiting := false, message := "", image := none, url := none }

/-- Fixes the outcome of every external effect of one run:
`jwtEnv` is `process.env.REACT_APP_PINATA_JWT` (absent = `none`);
`genFetch` the inference `fetch`; `pinFileResp` and `pinJsonResp` the two
`axios.post` calls (axios rejects on network failure and on non-success
status, so a non-2xx upload response is an `err`); `mintSubmit` the mint
transaction submission; `txWait` the `transaction.wait()` confirmation. -/
structure Oracle where
  jwtEnv : Option String
  genFetch : Res HttpResp
  pinFileResp : Res PinResp
  pinJsonResp : Res PinResp
  mintSubmit : Res Unit
  txWait : Res Unit
deriving DecidableEq, Repr

/-- JS `String.prototype.trim`: removes leading and trailing whitespace
characters. -/
def jsTrim (s : String) : String :=
  String.mk
    (((s.data.dropWhile Char.isWhitespace).reverse.dropWhile
        Char.isWhitespace).reverse)

/-- JS falsiness of `process.env.X?.trim()`: truthy iff the variable is
present and non-empty after trimming. -/
def jsFalsy : Option String → Bool
  | none => true
  | some s => s == ""

/-- JS template-literal interpolation of a possibly-undefined value:
`undefined` prints as the string `"undefined"`. -/
def interp : Option String → String
  | some s => s
  | none => "undefined"

/-- The gateway URL template of lines 85 and 109. -/
def gatewayUrl (h : String) : String :=
  "https://gateway.pinata.cloud/ipfs/" ++ h

/-- Contents of `new File([imageData], "image.jpeg", ...)`: a JS
`undefined` part is coerced to the string `"undefined"`. -/
def filePayload : Option Blob → Blob
  | some b => b
  | none => strBytes "undefined"

/-- `ethers.parseUnits(n, "ether")` for a whole-number amount, in wei. -/
def parseUnitsEther (n : Nat) : Nat := n * 10 ^ 18

/-- The `COST` argument `deploy.js` passes to `NFT.deploy`:
`ethers.parseUnits("1", "ether")`. -/
def deployCost : Nat := parseUnitsEther 1

/-- Return value of `uploadImageToPinata` (lines 114-119). -/
structure UploadResult where
  imageUrl : String
  metadataUrl : String
  imageHash : Option String
  metadataHash : Option String
deriving DecidableEq, Repr

/-- Output of one sub-computation of the run: the updated state, the
outbound calls it issued in order, the state snapshots at its `await`
suspension points, and its value or thrown error. -/
structure Step (α : Type) where
  st : AppState
  calls : List Call
  snaps : List AppState
  val : α
deriving DecidableEq, Repr

/-- `uploadImageToPinata(imageData, name, description)` (lines 53-125).
Checks the trimmed JWT (throwing, outside the try block, when falsy),
posts the file, builds the metadata document with `image := imageUrl`,
posts it, records both URLs; any axios rejection is caught and rethrown
wrapped as `Failed to upload to Pinata: ...`, after setting the failure
message.  The value is `Res UploadResult`: `err` models the throw. -/
def uploadImageToPinata (imageData : Option Blob) (name description : String)
    (o : Oracle) (st : AppState) : Step (Res UploadResult) :=
  let pinataJWT := o.jwtEnv.map jsTrim
  if jsFalsy pinataJWT then
    { st := st, calls := [], snaps := [],
      val := Res.err "Pinata JWT token is missing from environment variables." }
  else
    let st1 := { st with message := "Uploading image to IPFS..." }
    match o.pinFileResp with
    | Res.err m =>
        { st := { st1 with message := "Upload failed. See console for details." },
          calls := [Call.pinFile (filePayload imageData)], snaps := [st1],
          val := Res.err ("Failed to upload to Pinata: " ++ m) }
    | Res.ok r =>
        let imageHash := r.ipfsHash
        let imageUrl := gatewayUrl (interp imageHash)
        let metadata : Metadata :=
          { name := name, description := description, image := imageUrl,
            attributes := [] }
        let st2 := { st1 with message := "Uploading metadata..." }
        match o.pinJsonResp with
        | Res.err m =>
            { st := { st2 with message := "Upload failed. See console for details." },
              calls := [Call.pinFile (filePayload imageData), Call.pinJson metadata],
              snaps := [st1, st2],
              val := Res.err ("Failed to upload to Pinata: " ++ m) }
        | Res.ok r2 =>
            let metadataHash := r2.ipfsHash
            let metadataUrl := gatewayUrl (interp metadataHash)
            { st := { st2 with message := "Upload complete!", url := some metadataUrl },
              calls := [Call.pinFile (filePayload imageData), Call.pinJson metadata],
              snaps := [st1, st2],
              val := Res.ok { imageUrl := imageUrl, metadataUrl := metadataUrl,
                              imageHash := imageHash, metadataHash := metadataHash } }

/-- `query(data)` (lines 127-140): one POST of the JSON-serialized body to
the inference endpoint.  `fetch` rejects only on network failure; on any
HTTP response, success status or not, `response.blob()` resolves with the
body, which is returned unchecked. -/
def query (data : QueryBody) (o : Oracle) : List Call × Res Blob :=
  ([Call.generation data],
    match o.genFetch with
    | Res.err m => Res.err m
    | Res.ok resp => Res.ok resp.body)

/-- `createImage()` (lines 142-163): sets the progress message, queries
with the prompt `` `description` `` (the description wrapped in one
backtick on each side), stores the result blob in `image`, and returns it.
A rejection is caught: it sets the failure message, clears `isWaiting`,
and the function returns `undefined` (`none`). -/
def createImage (description : String) (o : Oracle) (st : AppState) :
    Step (Option Blob) :=
  let st1 := { st with message := "Generating Image..." }
  let body : QueryBody := { inputs := "`" ++ description ++ "`" }
  let (calls, res) := query body o
  match res with
  | Res.err _ =>
      { st := { st1 with
                  message := "Failed to generate image. Please try again."
                  isWaiting := false },
        calls := calls, snaps := [st1], val := none }
  | Res.ok blob =>
      { st := { st1 with image := some blob }, calls := calls, snaps := [st1],
        val := some blob }

/-- `handleUpload(imageBlob)` (lines 165-173): calls `uploadImageToPinata`
and returns `result.metadataUrl`; any thrown error is caught, logged, and
the function returns `undefined` (`none`). -/
def handleUpload (imageBlob : Option Blob) (name description : String)
    (o : Oracle) (st : AppState) : Step (Option String) :=
  let u := uploadImageToPinata imageBlob name description o st
  match u.val with
  | Res.ok r => { u with val := some r.metadataUrl }
  | Res.err _ => { u with val := none }

/-- `mintImage(tokenURI)` (lines 202-210): sets the wait message, then
`nft.connect(signer).mint(tokenURI, value parseUnits("1","ether"))` and
`transaction.wait()`.  Errors are not caught here; an `err` value is the
rejection that propagates to the caller. -/
def mintImage (tokenURI : Option String) (o : Oracle) (st : AppState) :
    Step (Res Unit) :=
  let st1 := { st with message := "Waiting for Mint..." }
  let calls := [Call.mint tokenURI (parseUnitsEther 1)]
  match o.mintSubmit with
  | Res.err m => { st := st1, calls := calls, snaps := [st1], val := Res.err m }
  | Res.ok _ =>
      match o.txWait with
      | Res.err m =>
          { st := st1, calls := calls, snaps := [st1, st1], val := Res.err m }
      | Res.ok _ =>
          { st := st1, calls := calls, snaps := [st1, st1], val := Res.ok () }

/-- How one run of `submitHandler` ends: the early `window.alert` return
on empty fields, normal completion of the handler body, or an uncaught
rejection (the only uncaught await is `mintImage`). -/
inductive RunOutcome where
  | emptyAlert
  | finished
  | crashed (msg : String)
deriving DecidableEq, Repr

/-- `submitHandler(e)` (lines 175-200): rejects empty name/description
with an alert, sets `isWaiting`, runs `createImage`, hands its value to
`handleUpload`, stores the returned URL, runs `mintImage` on it, and on
normal completion clears `isWaiting` and the message.  A `mintImage`
rejection is not caught, so the two trailing updates are skipped. -/
def submitHandler (name description : String) (o : Oracle) (st : AppState) :
    Step RunOutcome :=
  if name = "" ∨ description = "" then
    { st := st, calls := [], snaps := [], val := RunOutcome.emptyAlert }
  else
    let st1 := { st with isWaiting := true }
    let g := createImage description o st1
    let h := handleUpload g.val name description o g.st
    let st2 := { h.st with url := h.val }
    let m := mintImage h.val o st2
    { st :=
        match m.val with
        | Res.err _ => m.st
        | Res.ok _ => { m.st with isWaiting := false, message := "" },
      calls := g.calls ++ h.calls ++ m.calls,
      snaps := g.snaps ++ h.snaps ++ m.snaps,
      val :=
        match m.val with
        | Res.err msg => RunOutcome.crashed msg
        | Res.ok _ => RunOutcome.finished }

/-- The two form fields as submitted. -/
structure FormInput where
  name : String
  description : String
deriving DecidableEq, Repr

/-- HTML constraint validation declared on the form (lines 224-251):
both fields are `required`, the name input carries `minLength 3` /
`maxLength 30`, the description textarea `minLength 10` / `maxLength 150`.
A submission violating these never reaches `submitHandler`. -/
def formValid (inp : FormInput) : Bool :=
  3 ≤ inp.name.length && inp.name.length ≤ 30 &&
  10 ≤ inp.description.length && inp.description.length ≤ 150

/-- How the form layer disposes of a submission attempt: blocked because
the submit button is `disabled` while `isWaiting` (line 254), blocked by
constraint validation, or dispatched to `submitHandler`. -/
inductive SubmitResult where
  | rejectedBusy
  | rejectedInvalid
  | ran (outcome : RunOutcome)
deriving DecidableEq, Repr

/-- A submission attempt against the rendered form: while `isWaiting` the
submit control is disabled, so no submit event fires; an input violating
the declared constraints is stopped by the browser's constraint
validation; otherwise `submitHandler` runs. -/
def formSubmit (inp : FormInput) (o : Oracle) (st : AppState) :
    Step SubmitResult :=
  if st.isWaiting then
    { st := st, calls := [], snaps := [], val := SubmitResult.rejectedBusy }
  else if ¬ formValid inp then
    { st := st, calls := [], snaps := [], val := SubmitResult.rejectedInvalid }
  else
    let r := submitHandler inp.name inp.description o st
    { r with val := SubmitResult.ran r.val }

/-! ## Concrete scenario data -/

/-- The spec's scenario input: name "Cyber Lion" with its description. -/
def lionInput : FormInput :=
  { name := "Cyber Lion",
    description := "A futuristic lion with cybernetic enhancements." }

/-- An environment in which every external effect succeeds. -/
def okOracle : Oracle :=
  { jwtEnv := some "jwt-token",
    genFetch := Res.ok { status := 200, body := [1, 2, 3] },
    pinFileResp := Res.ok { ipfsHash := some "Qm1mage" },
    pinJsonResp := Res.ok { ipfsHash := some "Qmeta" },
    mintSubmit := Res.ok (), txWait := Res.ok () }

/-- Environment in which the inference endpoint answers HTTP 503 with an
error body and everything else succeeds. -/
def gen503Oracle : Oracle :=
  { okOracle with genFetch := Res.ok { status := 503, body := strBytes "unavailable" } }

/-! ## Theorems -/

/-- C10: for every submission that reaches the generation stage, the body
of the inference request is the object with single field `inputs` holding
the description wrapped in one backtick on each side, never the raw
description itself. -/
theorem c10_generation_prompt_is_backticked_description
    (inp : FormInput) (o : Oracle) (st : AppState) (b : QueryBody)
    (hg : Call.generation b ∈ (formSubmit inp o st).calls) :
    b.inputs = "`" ++ inp.description ++ "`" ∧ b.inputs ≠ inp.description := by
  have hb : b.inputs = "`" ++ inp.description ++ "`" := by
    rcases o with ⟨jwt, gen, pf, pj, ms, tw⟩
    by_cases hw : st.isWaiting
    · simp [formSubmit, hw] at hg
    · by_cases hv : formValid inp
      · by_cases hemp : inp.name = "" ∨ inp.description = ""
        · simp [formSubmit, submitHandler, hw, hv, hemp] at hg
        · cases hjf : jsFalsy (jwt.map jsTrim) <;>
            cases gen <;> cases pf <;> cases pj <;> cases ms <;> cases tw <;>
            simp_all [formSubmit, submitHandler, createImage, query, handleUpload,
              uploadImageToPinata, mintImage, hjf]
      · simp [formSubmit, hw, hv] at hg
  refine ⟨hb, ?_⟩
  intro hcontra
  have h2 := congrArg String.length (hb ▸ hcontra)
  have hbt : ("`" : String).length = 1 := rfl
  simp only [String.length_append, hbt] at h2
  omega

/-- Witness for C10 at the spec's scenario input. -/
theorem c10_witness :
    QueryBody.inputs { inputs := "`A futuristic lion with cybernetic enhancements.`" }
        = "`" ++ lionInput.description ++ "`" ∧
    QueryBody.inputs { inputs := "`A futuristic lion with cybernetic enhancements.`" }
        ≠ lionInput.description :=
  c10_generation_prompt_is_backticked_description lionInput okOracle initialState
    { inputs := "`A futuristic lion with cybernetic enhancements.`" } (by decide)

/-- C6: a submission whose name length is outside [3,30] or whose
description length is outside [10,150], issued while idle, is stopped by
the form's declared constraint validation: the state is unchanged, no
network call is issued, and the submission is rejected as invalid. -/
theorem c6_invalid_lengths_rejected_without_network_calls
    (inp : FormInput) (o : Oracle) (st : AppState)
    (hidle : st.isWaiting = false)
    (hbad : ¬ (3 ≤ inp.name.length ∧ inp.name.length ≤ 30) ∨
            ¬ (10 ≤ inp.description.length ∧ inp.description.length ≤ 150)) :
    formSubmit inp o st
      = { st := st, calls := [], snaps := [], val := SubmitResult.rejectedInvalid } := by
  have hv : formValid inp = false := by
    simp only [formValid, Bool.and_eq_false_iff, decide_eq_false_iff_not, not_le]
    omega
  simp [formSubmit, hidle, hv]

/-- Witness for C6: a two-character name is rejected with no calls. -/
theorem c6_witness :
    formSubmit { name := "ab", description := "a sufficiently long description" }
        okOracle initialState
      = { st := initialState, calls := [], snaps := [],
          val := SubmitResult.rejectedInvalid } :=
  c6_invalid_lengths_rejected_without_network_calls
    { name := "ab", description := "a sufficiently long description" }
    okOracle initialState rfl (by decide)

/-- C3 fails on the code: `query` never inspects the HTTP status
(`response.blob()` resolves on a 503 as well), so a generation call that
answers HTTP 503 does not end the run.  The error body is treated as the
image: both pinning uploads and the mint call are still issued and the
run completes normally. -/
theorem c3_generation_503_still_uploads_and_mints :
    Call.pinFile (strBytes "unavailable")
        ∈ (formSubmit lionInput gen503Oracle initialState).calls ∧
    Call.mint (some (gatewayUrl "Qmeta")) deployCost
        ∈ (formSubmit lionInput gen503Oracle initialState).calls ∧
    (formSubmit lionInput gen503Oracle initialState).val
        = SubmitResult.ran RunOutcome.finished := by
  decide

/-- Environment in which the image pin request fails with a network error;
the mint submission, handed a JS-undefined token URI, rejects as the
chain library refuses to encode it. -/
def pinFailOracle : Oracle :=
  { okOracle with pinFileResp := Res.err "Network Error",
                  mintSubmit := Res.err "invalid value for string" }

/-- C5 fails on the code: when the image pin request fails, the rethrown
upload error is caught inside `handleUpload`, which returns `undefined`;
`submitHandler` then proceeds and invokes the mint stage with an
undefined token URI, so the failure is not terminal and no
`UploadFailed` state tagged with the failing stage exists. -/
theorem c5_upload_failure_still_reaches_mint :
    Call.pinFile [1, 2, 3] ∈ (formSubmit lionInput pinFailOracle initialState).calls ∧
    Call.mint none deployCost ∈ (formSubmit lionInput pinFailOracle initialState).calls ∧
    (formSubmit lionInput pinFailOracle initialState).val
      = SubmitResult.ran (RunOutcome.crashed "invalid value for string") := by
  decide

/-- Environment in which the generation `fetch` rejects with a network
error and everything else succeeds. -/
def genFailOracle : Oracle :=
  { okOracle with genFetch := Res.err "Network Error" }

/-- C7 fails on the code: the catch in `createImage` clears `isWaiting`
while `submitHandler` carries on, so at the image-upload suspension point
of a run whose generation failed, the busy flag is already false; a new
submission arriving there is dispatched to the handler and issues fresh
network calls instead of being rejected. -/
theorem c7_submission_accepted_during_inflight_run :
    (formSubmit lionInput genFailOracle initialState).snaps[1]?
      = some { isWaiting := false, message := "Uploading image to IPFS...",
               image := none, url := none } ∧
    (formSubmit lionInput okOracle
        { isWaiting := false, message := "Uploading image to IPFS...",
          image := none, url := none }).val
      = SubmitResult.ran RunOutcome.finished ∧
    Call.generation { inputs := "`" ++ lionInput.description ++ "`" }
      ∈ (formSubmit lionInput okOracle
          { isWaiting := false, message := "Uploading image to IPFS...",
            image := none, url := none }).calls := by
  decide

/-- Environment with the Pinata credential absent; the mint submission,
handed a JS-undefined token URI, rejects as the chain library refuses to
encode it. -/
def noJwtOracle : Oracle :=
  { okOracle with jwtEnv := none, mintSubmit := Res.err "invalid value for string" }

/-- Counterexample to C4: with the content-store credential absent, the
image-generation request is still issued — the credential is only checked
inside the upload stage, after generation. -/
theorem c4_counterexample_generation_issued_without_credential :
    noJwtOracle.jwtEnv = none ∧
    Call.generation { inputs := "`" ++ lionInput.description ++ "`" }
      ∈ (formSubmit lionInput noJwtOracle initialState).calls := by
  decide

/-- C4 as amended: when the content-store credential is absent, the
upload stage throws the missing-credential error before any pinning
request — the run issues no pinFile and no pinJson call — but the
image-generation request has already been issued by then. -/
theorem c4_amended_missing_credential_blocks_uploads_only
    (inp : FormInput) (o : Oracle) (st : AppState)
    (hidle : st.isWaiting = false) (hv : formValid inp = true)
    (hjwt : jsFalsy (o.jwtEnv.map jsTrim) = true) :
    (∀ p, Call.pinFile p ∉ (formSubmit inp o st).calls) ∧
    (∀ d, Call.pinJson d ∉ (formSubmit inp o st).calls) ∧
    (∃ b, Call.generation b ∈ (formSubmit inp o st).calls) ∧
    (∀ img st', (uploadImageToPinata img inp.name inp.description o st').val
        = Res.err "Pinata JWT token is missing from environment variables.") := by
  have hvv := hv
  simp only [formValid, Bool.and_eq_true, decide_eq_true_eq] at hvv
  have hne : ¬ (inp.name = "" ∨ inp.description = "") := by
    rintro (h | h) <;> rw [h] at hvv <;>
      simp only [String.length_empty] at hvv <;> omega
  rcases o with ⟨jwt, gen, pf, pj, ms, tw⟩
  refine ⟨?_, ?_, ?_, ?_⟩
  · intro p
    cases gen <;> cases ms <;> cases tw <;>
      simp_all [formSubmit, submitHandler, createImage, query, handleUpload,
        uploadImageToPinata, mintImage]
  · intro d
    cases gen <;> cases ms <;> cases tw <;>
      simp_all [formSubmit, submitHandler, createImage, query, handleUpload,
        uploadImageToPinata, mintImage]
  · cases gen <;> cases ms <;> cases tw <;>
      simp_all [formSubmit, submitHandler, createImage, query, handleUpload,
        uploadImageToPinata, mintImage]
  · intro img st'
    simp [uploadImageToPinata, hjwt]

/-- Witness for C4 as amended: with the credential absent no file-pin
request with the coerced undefined payload is issued. -/
theorem c4_amended_witness :
    Call.pinFile (strBytes "undefined")
      ∉ (formSubmit lionInput noJwtOracle initialState).calls :=
  (c4_amended_missing_credential_blocks_uploads_only lionInput noJwtOracle
    initialState rfl (by decide) (by decide)).1 (strBytes "undefined")

/-- Environment in which everything succeeds until the user rejects the
mint transaction. -/
def mintFailOracle : Oracle :=
  { okOracle with mintSubmit := Res.err "user rejected the transaction" }

/-- Counterexample to C8: a run failing at the mint stage ends with the
busy flag still set — `submitHandler` never catches the rejection, so the
trailing `setIsWaiting(false)` is skipped — and a subsequent valid
submission is rejected as busy instead of starting a fresh run. -/
theorem c8_counterexample_mint_failure_keeps_slot_busy :
    (formSubmit lionInput mintFailOracle initialState).val
      = SubmitResult.ran (RunOutcome.crashed "user rejected the transaction") ∧
    (formSubmit lionInput mintFailOracle initialState).st.isWaiting = true ∧
    (formSubmit lionInput okOracle
        (formSubmit lionInput mintFailOracle initialState).st).val
      = SubmitResult.rejectedBusy := by
  decide

set_option maxHeartbeats 1600000 in
/-- C8 as amended: after every run that reaches its terminal state through
the success path (the handler completes without an uncaught rejection),
the busy flag is cleared and the progress message reset, so the slot is
idle again; any subsequent submission with a valid input is dispatched —
neither rejected as busy nor as invalid — and issues a fresh generation
call. -/
theorem c8_amended_successful_run_releases_slot
    (inp : FormInput) (o : Oracle) (st : AppState)
    (hfin : (formSubmit inp o st).val = SubmitResult.ran RunOutcome.finished) :
    (formSubmit inp o st).st.isWaiting = false ∧
    (formSubmit inp o st).st.message = "" ∧
    (∀ inp2 o2, formValid inp2 = true →
      (formSubmit inp2 o2 (formSubmit inp o st).st).val ≠ SubmitResult.rejectedBusy ∧
      (formSubmit inp2 o2 (formSubmit inp o st).st).val ≠ SubmitResult.rejectedInvalid ∧
      Call.generation { inputs := "`" ++ inp2.description ++ "`" }
        ∈ (formSubmit inp2 o2 (formSubmit inp o st).st).calls) := by
  have hrel : (formSubmit inp o st).st.isWaiting = false ∧
      (formSubmit inp o st).st.message = "" := by
    rcases o with ⟨jwt, gen, pf, pj, ms, tw⟩
    by_cases hw : st.isWaiting
    · simp [formSubmit, hw] at hfin
    · by_cases hv : formValid inp
      · by_cases hemp : inp.name = "" ∨ inp.description = ""
        · simp [formSubmit, submitHandler, hw, hv, hemp] at hfin
        · cases hjf : jsFalsy (jwt.map jsTrim) <;>
            cases gen <;> cases pf <;> cases pj <;> cases ms <;> cases tw <;>
            simp_all [formSubmit, submitHandler, createImage, query, handleUpload,
              uploadImageToPinata, mintImage, hjf]
      · simp [formSubmit, hw, hv] at hfin
  refine ⟨hrel.1, hrel.2, ?_⟩
  obtain ⟨hw1, -⟩ := hrel
  clear hfin
  intro inp2 o2 hv2
  have hvv := hv2
  simp only [formValid, Bool.and_eq_true, decide_eq_true_eq] at hvv
  have hne2 : ¬ (inp2.name = "" ∨ inp2.description = "") := by
    rintro (h | h) <;> rw [h] at hvv <;>
      simp only [String.length_empty] at hvv <;> omega
  clear hvv
  generalize (formSubmit inp o st).st = fin at hw1 ⊢
  rcases o2 with ⟨jwt, gen, pf, pj, ms, tw⟩
  cases hjf : jsFalsy (jwt.map jsTrim) <;>
    cases gen <;> cases pf <;> cases pj <;> cases ms <;> cases tw <;>
    simp_all [formSubmit, submitHandler, createImage, query, handleUpload,
      uploadImageToPinata, mintImage, hjf]

/-- Witness for C8 as amended, at a fully successful run. -/
theorem c8_amended_witness :
    (formSubmit lionInput okOracle initialState).st.isWaiting = false ∧
    (formSubmit lionInput okOracle initialState).st.message = "" ∧
    (∀ inp2 o2, formValid inp2 = true →
      (formSubmit inp2 o2 (formSubmit lionInput okOracle initialState).st).val
          ≠ SubmitResult.rejectedBusy ∧
      (formSubmit inp2 o2 (formSubmit lionInput okOracle initialState).st).val
          ≠ SubmitResult.rejectedInvalid ∧
      Call.generation { inputs := "`" ++ inp2.description ++ "`" }
        ∈ (formSubmit inp2 o2 (formSubmit lionInput okOracle initialState).st).calls) :=
  c8_amended_successful_run_releases_slot lionInput okOracle initialState (by decide)

/-- C9: every mint call the pipeline issues carries the fixed payment of
one ether — the amount `deploy.js` deploys the contract with — together
with the token URI it was handed, and a run completes successfully only
if the mint transaction submission succeeded and its on-chain
confirmation was awaited successfully. -/
theorem c9_mint_value_fixed_and_confirmation_awaited
    (inp : FormInput) (o : Oracle) (st : AppState) (u : Option String) (v : Nat)
    (hm : Call.mint u v ∈ (formSubmit inp o st).calls) :
    v = deployCost ∧
    ((formSubmit inp o st).val = SubmitResult.ran RunOutcome.finished →
      o.mintSubmit = Res.ok () ∧ o.txWait = Res.ok ()) := by
  rcases o with ⟨jwt, gen, pf, pj, ms, tw⟩
  by_cases hw : st.isWaiting
  · simp [formSubmit, hw] at hm
  · by_cases hv : formValid inp
    · by_cases hemp : inp.name = "" ∨ inp.description = ""
      · simp [formSubmit, submitHandler, hw, hv, hemp] at hm
      · cases hjf : jsFalsy (jwt.map jsTrim) <;>
          cases gen <;> cases pf <;> cases pj <;> cases ms <;> cases tw <;>
          simp_all [formSubmit, submitHandler, createImage, query, handleUpload,
            uploadImageToPinata, mintImage, hjf, deployCost]
    · simp [formSubmit, hw, hv] at hm

/-- Witness for C9 at the fully successful scenario run. -/
theorem c9_witness :
    deployCost = deployCost ∧
    ((formSubmit lionInput okOracle initialState).val
        = SubmitResult.ran RunOutcome.finished →
      okOracle.mintSubmit = Res.ok () ∧ okOracle.txWait = Res.ok ()) :=
  c9_mint_value_fixed_and_confirmation_awaited lionInput okOracle initialState
    (some (gatewayUrl "Qmeta")) deployCost (by decide)

/-- C1: in every run whose image pin succeeds with content identifier h,
the metadata document carried by the metadata pin request — hence fixed
before that request is issued — has its image field byte-for-byte equal
to the gateway URL built from h. -/
theorem c1_metadata_image_equals_image_upload_url
    (inp : FormInput) (o : Oracle) (st : AppState) (h : String) (doc : Metadata)
    (hok : o.pinFileResp = Res.ok { ipfsHash := some h })
    (hmem : Call.pinJson doc ∈ (formSubmit inp o st).calls) :
    doc.image = gatewayUrl h := by
  rcases o with ⟨jwt, gen, pf, pj, ms, tw⟩
  subst hok
  by_cases hw : st.isWaiting
  · simp [formSubmit, hw] at hmem
  · by_cases hv : formValid inp
    · by_cases hemp : inp.name = "" ∨ inp.description = ""
      · simp [formSubmit, submitHandler, hw, hv, hemp] at hmem
      · cases hjf : jsFalsy (jwt.map jsTrim) <;>
          cases gen <;> cases pj <;> cases ms <;> cases tw <;>
          simp_all [formSubmit, submitHandler, createImage, query, handleUpload,
            uploadImageToPinata, mintImage, hjf, interp]
    · simp [formSubmit, hw, hv] at hmem

/-- Witness for C1 at the scenario run: the pinned document's image field
is the gateway URL of the image hash Qm1mage. -/
theorem c1_witness :
    Metadata.image
      { name := "Cyber Lion",
        description := "A futuristic lion with cybernetic enhancements.",
        image := "https://gateway.pinata.cloud/ipfs/Qm1mage", attributes := [] }
      = gatewayUrl "Qm1mage" :=
  c1_metadata_image_equals_image_upload_url lionInput okOracle initialState
    "Qm1mage"
    { name := "Cyber Lion",
      description := "A futuristic lion with cybernetic enhancements.",
      image := "https://gateway.pinata.cloud/ipfs/Qm1mage", attributes := [] }
    (by decide) (by decide)

/-- C2: in every run that issues the metadata pin request and whose
metadata pin succeeds with content identifier h, the token URI handed to
the chain mint call is exactly the gateway URL built from h. -/
theorem c2_tokenUri_equals_metadata_upload_url
    (inp : FormInput) (o : Oracle) (st : AppState) (doc : Metadata)
    (h : String) (u : Option String) (v : Nat)
    (hpj : Call.pinJson doc ∈ (formSubmit inp o st).calls)
    (hok : o.pinJsonResp = Res.ok { ipfsHash := some h })
    (hm : Call.mint u v ∈ (formSubmit inp o st).calls) :
    u = some (gatewayUrl h) := by
  rcases o with ⟨jwt, gen, pf, pj, ms, tw⟩
  subst hok
  by_cases hw : st.isWaiting
  · simp [formSubmit, hw] at hm
  · by_cases hv : formValid inp
    · by_cases hemp : inp.name = "" ∨ inp.description = ""
      · simp [formSubmit, submitHandler, hw, hv, hemp] at hm
      · cases hjf : jsFalsy (jwt.map jsTrim) <;>
          cases gen <;> cases pf <;> cases ms <;> cases tw <;>
          simp_all [formSubmit, submitHandler, createImage, query, handleUpload,
            uploadImageToPinata, mintImage, hjf, interp]
    · simp [formSubmit, hw, hv] at hm

/-- Witness for C2 at the scenario run: metadata hash Qmeta yields the
token URI of the gateway URL of Qmeta. -/
theorem c2_witness : some (gatewayUrl "Qmeta")
      = some ("https://gateway.pinata.cloud/ipfs/" ++ "Qmeta") :=
  (c2_tokenUri_equals_metadata_upload_url lionInput okOracle initialState
    { name := "Cyber Lion",
      description := "A futuristic lion with cybernetic enhancements.",
      image := "https://gateway.pinata.cloud/ipfs/Qm1mage", attributes := [] }
    "Qmeta" (some (gatewayUrl "Qmeta")) deployCost
    (by decide) (by decide) (by decide)) ▸ rfl

end AiNft
